import Mathlib

/-!
# Native plugin loader for macOS (`src/core/base/macos/loader.cc`, `loader.hh`)

A shallow embedding of `tTVPSharedLibrary_Mac`: the handle is a record of its three
private fields, every method is a function from the handle (and the results of the
native calls it makes) to an `Outcome`: the handle afterwards, the native calls that
were made, in order, and either the returned value or the raised message.

The operating-system interfaces the loader calls (CoreFoundation, `dlfcn`, Mach-O
section lookup) are not part of the program.  Their results are taken as a parameter,
the record `Native`; every method call receives its own `Native`, so successive calls
may see different results.
-/

/-! ## Native references and constants -/

/-- A native pointer (`void *`, `CFStringRef`, `CFURLRef`, `CFBundleRef`, ...);
`0` is the null pointer. -/
abbrev Ptr := Nat

/-- A `ttstr`: the UTF-16 code units of the text. -/
abbrev ttstr := List Nat

/-- The wide literal `TJS_W("...")`. -/
def TJS_W (s : String) : ttstr := s.toList.map Char.toNat

/-- The constant `nullptr`. -/
def nullptr : Ptr := 0

/-- The constant `kCFStringEncodingUTF8`. -/
def kCFStringEncodingUTF8 : Nat := 0x08000100

/-- The constant `kCFStringEncodingUTF16LE`. -/
def kCFStringEncodingUTF16LE : Nat := 0x14000100

/-- The constant `kCFCompareCaseInsensitive`. -/
def kCFCompareCaseInsensitive : Nat := 1

/-- The constant `kCFCompareEqualTo`. -/
def kCFCompareEqualTo : Int := 0

/-- The constant `RTLD_LAZY`. -/
def RTLD_LAZY : Nat := 1

/-- The constant `SEG_DATA`. -/
def SEG_DATA : String := "__DATA"

/-- The constant `kTVPSharedLibraryObjCStatusUnavailable` (`loader.hh`, line 25). -/
def kTVPSharedLibraryObjCStatusUnavailable : Int := -1

/-- The constant `kTVPSharedLibraryObjCStatusObjCNotPresent` (`loader.hh`, line 26). -/
def kTVPSharedLibraryObjCStatusObjCNotPresent : Int := 0

/-- The constant `kTVPSharedLibraryObjCStatusObjCPresent` (`loader.hh`, line 27). -/
def kTVPSharedLibraryObjCStatusObjCPresent : Int := 1

/-- The `Dl_info` record filled by `dladdr`. -/
structure Dl_info where
  dli_fname : Ptr
  dli_fbase : Ptr
  dli_sname : Ptr
  dli_saddr : Ptr
deriving DecidableEq, Repr

/-- The results of the native calls, as seen by one method call.  A C string
(`const char *`) is `none` for the null pointer and `some` of its characters
otherwise; `dladdr` yields its return code together with the record it fills. -/
structure Native where
  CFAllocatorGetDefault : Ptr
  CFStringCreateWithCString : Ptr → ttstr → Nat → Ptr
  CFURLCreateWithString : Ptr → Ptr → Ptr → Ptr
  CFURLCopyPathExtension : Ptr → Ptr
  CFSTR : String → Ptr
  CFStringCompare : Ptr → Ptr → Nat → Int
  CFStringGetCStringPtr : Ptr → Nat → Option String
  dlopen : String → Nat → Ptr
  CFBundleCreate : Ptr → Ptr → Ptr
  dlsym : Ptr → String → Ptr
  CFBundleGetFunctionPointerForName : Ptr → Ptr → Ptr
  dladdr : Ptr → Int × Dl_info
  getsectbynamefromheader_64 : Ptr → String → String → Ptr

/-- A native call with its arguments, as recorded in the order of execution. -/
inductive NativeCall where
  | CFAllocatorGetDefault
  | CFStringCreateWithCString (alloc : Ptr) (cStr : ttstr) (encoding : Nat)
  | CFURLCreateWithString (alloc : Ptr) (urlString : Ptr) (baseURL : Ptr)
  | CFURLCopyPathExtension (url : Ptr)
  | CFStringCompare (s1 : Ptr) (s2 : Ptr) (flags : Nat)
  | CFStringGetCStringPtr (s : Ptr) (encoding : Nat)
  | dlopen (path : String) (mode : Nat)
  | CFBundleCreate (alloc : Ptr) (url : Ptr)
  | CFRelease (cf : Ptr)
  | dlsym (handle : Ptr) (symbol : String)
  | CFBundleGetFunctionPointerForName (bundle : Ptr) (name : Ptr)
  | dladdr (addr : Ptr)
  | getsectbynamefromheader_64 (mhp : Ptr) (segname : String) (sectname : String)
  | dlclose (handle : Ptr)
deriving DecidableEq, Repr

/-- The messages the loader raises: the message constant
`TVPIllegalCharacterConversionUTF16toUTF8` (declared with the other messages, outside
these two files) and a wide string literal. -/
inductive TVPMessage where
  | TVPIllegalCharacterConversionUTF16toUTF8
  | literal (text : ttstr)
deriving DecidableEq, Repr

/-- Modelled from the spec: `TVPThrowExceptionMessage` is declared in `MsgIntf.h`,
which is not among the sources.  It reports the message as an error condition and
does not return to its caller. -/
def TVPThrowExceptionMessage {α : Type} (msg : TVPMessage) : Except TVPMessage α :=
  Except.error msg

/-- What a method call leaves behind: the object afterwards, the native calls made,
and the value returned or the message raised. -/
structure Outcome (σ α : Type) where
  self : σ
  calls : List NativeCall
  result : Except TVPMessage α

/-! ## The handle -/

/-- The private fields of `tTVPSharedLibrary_Mac` (`loader.hh`, lines 69-72). -/
structure tTVPSharedLibrary_Mac where
  m_objCStaus : Int
  m_dlHandle : Ptr
  m_bundle : Ptr
deriving DecidableEq, Repr

namespace tTVPSharedLibrary_Mac

/-- The constructor `tTVPSharedLibrary_Mac::tTVPSharedLibrary_Mac()`
(`loader.cc`, lines 15-17). -/
def constructor : tTVPSharedLibrary_Mac :=
  { m_objCStaus := kTVPSharedLibraryObjCStatusUnavailable
    m_dlHandle := nullptr
    m_bundle := nullptr }

/-- The method `CanUnload()` (`loader.cc`, lines 134-136). -/
def CanUnload (self : tTVPSharedLibrary_Mac) : Bool :=
  self.m_objCStaus == kTVPSharedLibraryObjCStatusObjCNotPresent

/-- The destructor `~tTVPSharedLibrary_Mac()` (`loader.cc`, lines 19-31): the
native calls it makes. -/
def destructor (self : tTVPSharedLibrary_Mac) : List NativeCall :=
  if !self.CanUnload then
    []
  else
    (if self.m_dlHandle ≠ 0 then [NativeCall.dlclose self.m_dlHandle] else []) ++
    (if self.m_bundle ≠ 0 then [NativeCall.CFRelease self.m_bundle] else [])

/-- The tail of `Open` (`loader.cc`, lines 68-80), reached when the `dlopen` branch
was not taken or did not yield a handle; `calls` are the native calls made so far. -/
def OpenBundle (N : Native) (self : tTVPSharedLibrary_Mac) (allocator pathUrl extension : Ptr)
    (calls : List NativeCall) : Outcome tTVPSharedLibrary_Mac Unit :=
  let bundle := N.CFBundleCreate allocator pathUrl
  let calls := calls ++ [NativeCall.CFRelease extension,
    NativeCall.CFBundleCreate allocator pathUrl, NativeCall.CFRelease pathUrl]
  if bundle = 0 then
    { self := self, calls := calls, result := Except.ok () }
  else
    { self := { self with m_bundle := bundle }, calls := calls, result := Except.ok () }

/-- The method `Open(path)` (`loader.cc`, lines 33-80). -/
def Open (self : tTVPSharedLibrary_Mac) (N : Native) (path : ttstr) :
    Outcome tTVPSharedLibrary_Mac Unit :=
  let allocator := N.CFAllocatorGetDefault
  let pathStr := N.CFStringCreateWithCString allocator path kCFStringEncodingUTF16LE
  let pathUrl := N.CFURLCreateWithString allocator pathStr nullptr
  let extension := N.CFURLCopyPathExtension pathUrl
  let calls := [NativeCall.CFAllocatorGetDefault,
    NativeCall.CFStringCreateWithCString allocator path kCFStringEncodingUTF16LE,
    NativeCall.CFURLCreateWithString allocator pathStr nullptr,
    NativeCall.CFURLCopyPathExtension pathUrl]
  let isDylib : Bool :=
    N.CFStringCompare extension (N.CFSTR "dylib") kCFCompareCaseInsensitive == kCFCompareEqualTo
  let isDll : Bool :=
    N.CFStringCompare extension (N.CFSTR "dll") kCFCompareCaseInsensitive == kCFCompareEqualTo
  -- the second comparison is made only when the first one is not an equality
  let calls := calls ++
    [NativeCall.CFStringCompare extension (N.CFSTR "dylib") kCFCompareCaseInsensitive] ++
    (if isDylib then []
     else [NativeCall.CFStringCompare extension (N.CFSTR "dll") kCFCompareCaseInsensitive])
  if isDylib || isDll then
    let calls := calls ++ [NativeCall.CFStringGetCStringPtr pathStr kCFStringEncodingUTF8]
    match N.CFStringGetCStringPtr pathStr kCFStringEncodingUTF8 with
    | none =>
      { self := self, calls := calls,
        result := TVPThrowExceptionMessage TVPMessage.TVPIllegalCharacterConversionUTF16toUTF8 }
    | some pathUtf8 =>
      let hdl := N.dlopen pathUtf8 RTLD_LAZY
      let calls := calls ++ [NativeCall.dlopen pathUtf8 RTLD_LAZY]
      if hdl ≠ 0 then
        { self := { self with m_dlHandle := hdl },
          calls := calls ++ [NativeCall.CFRelease extension, NativeCall.CFRelease pathUrl,
            NativeCall.CFRelease pathStr],
          result := Except.ok () }
      else
        OpenBundle N self allocator pathUrl extension calls
  else
    OpenBundle N self allocator pathUrl extension calls

/-- The tail of `GetFunction` (`loader.cc`, lines 102-122), reached with the value
`sym` has after the `dlsym` branch; `calls` are the native calls made so far. -/
def GetFunctionTail (N : Native) (self : tTVPSharedLibrary_Mac) (symbolName : Ptr) (sym : Ptr)
    (calls : List NativeCall) : Outcome tTVPSharedLibrary_Mac Ptr :=
  let sym := if self.m_bundle ≠ 0 then
      N.CFBundleGetFunctionPointerForName self.m_bundle symbolName
    else sym
  let calls := calls ++
    (if self.m_bundle ≠ 0 then
      [NativeCall.CFBundleGetFunctionPointerForName self.m_bundle symbolName]
     else []) ++
    [NativeCall.CFRelease symbolName]
  if sym ≠ 0 ∧ self.m_objCStaus = kTVPSharedLibraryObjCStatusUnavailable then
    let info := (N.dladdr sym).2
    if (N.dladdr sym).1 ≠ 0 then
      let sect := N.getsectbynamefromheader_64 info.dli_fbase SEG_DATA "__objc_imageinfo"
      { self := { self with
          m_objCStaus := if sect ≠ 0 then kTVPSharedLibraryObjCStatusObjCPresent
                         else kTVPSharedLibraryObjCStatusObjCNotPresent },
        calls := calls ++ [NativeCall.dladdr sym,
          NativeCall.getsectbynamefromheader_64 info.dli_fbase SEG_DATA "__objc_imageinfo"],
        result := Except.ok sym }
    else
      { self := self, calls := calls ++ [NativeCall.dladdr sym], result := Except.ok sym }
  else
    { self := self, calls := calls, result := Except.ok sym }

/-- The method `GetFunction(name)` (`loader.cc`, lines 82-123). -/
def GetFunction (self : tTVPSharedLibrary_Mac) (N : Native) (name : ttstr) :
    Outcome tTVPSharedLibrary_Mac Ptr :=
  let allocator := N.CFAllocatorGetDefault
  let symbolName := N.CFStringCreateWithCString allocator name kCFStringEncodingUTF16LE
  let calls := [NativeCall.CFAllocatorGetDefault,
    NativeCall.CFStringCreateWithCString allocator name kCFStringEncodingUTF16LE]
  if self.m_dlHandle ≠ 0 then
    let calls := calls ++ [NativeCall.CFStringGetCStringPtr symbolName kCFStringEncodingUTF8]
    match N.CFStringGetCStringPtr symbolName kCFStringEncodingUTF8 with
    | none =>
      { self := self, calls := calls ++ [NativeCall.CFRelease symbolName],
        result := TVPThrowExceptionMessage TVPMessage.TVPIllegalCharacterConversionUTF16toUTF8 }
    | some symNameUtf8 =>
      GetFunctionTail N self symbolName (N.dlsym self.m_dlHandle symNameUtf8)
        (calls ++ [NativeCall.dlsym self.m_dlHandle symNameUtf8])
  else
    GetFunctionTail N self symbolName nullptr calls

/-- The method `Close()` (`loader.cc`, lines 125-132).  After `delete this` the object is gone:
the outcome holds `none`, and the native calls are those of the destructor. -/
def Close (self : tTVPSharedLibrary_Mac) : Outcome (Option tTVPSharedLibrary_Mac) Unit :=
  if !self.CanUnload then
    { self := some self, calls := [],
      result := TVPThrowExceptionMessage
        (TVPMessage.literal (TJS_W "tTVPSharedLibrary_Mac: failed to unload a plugin")) }
  else
    { self := none, calls := self.destructor, result := Except.ok () }

end tTVPSharedLibrary_Mac

/-! ## Sequences of calls -/

/-- A call of `Open` or `GetFunction`, with the native results that call sees. -/
inductive Call where
  | Open (N : Native) (path : ttstr)
  | GetFunction (N : Native) (name : ttstr)

/-- The handle after one call.  A raised message leaves the object as the call left
it; the caller may go on using it. -/
def Call.apply (c : Call) (self : tTVPSharedLibrary_Mac) : tTVPSharedLibrary_Mac :=
  match c with
  | Call.Open N path => (self.Open N path).self
  | Call.GetFunction N name => (self.GetFunction N name).self

/-- The handle after a finite sequence of calls, made in order. -/
def run (self : tTVPSharedLibrary_Mac) : List Call → tTVPSharedLibrary_Mac
  | [] => self
  | c :: cs => run (c.apply self) cs

/-- Every `Open` of the sequence is made on a handle both of whose native references
are null. -/
def opensUnopened (self : tTVPSharedLibrary_Mac) : List Call → Prop
  | [] => True
  | Call.Open N path :: cs =>
    (self.m_dlHandle = 0 ∧ self.m_bundle = 0) ∧ opensUnopened (self.Open N path).self cs
  | Call.GetFunction N name :: cs => opensUnopened (self.GetFunction N name).self cs

/-! ## The values `Open` and `GetFunction` compute from their argument -/

/-- The local `pathStr` of `Open` (`loader.cc`, lines 36-38). -/
def OpenPathStr (N : Native) (path : ttstr) : Ptr :=
  N.CFStringCreateWithCString N.CFAllocatorGetDefault path kCFStringEncodingUTF16LE

/-- The local `pathUrl` of `Open` (`loader.cc`, line 40). -/
def OpenPathUrl (N : Native) (path : ttstr) : Ptr :=
  N.CFURLCreateWithString N.CFAllocatorGetDefault (OpenPathStr N path) nullptr

/-- The local `extension` of `Open` (`loader.cc`, line 41). -/
def OpenExtension (N : Native) (path : ttstr) : Ptr :=
  N.CFURLCopyPathExtension (OpenPathUrl N path)

/-- The condition of `loader.cc`, lines 44-47: the extension compares equal to
`dylib` or to `dll`, case-insensitively. -/
def OpenExtensionMatches (N : Native) (path : ttstr) : Prop :=
  N.CFStringCompare (OpenExtension N path) (N.CFSTR "dylib") kCFCompareCaseInsensitive
      = kCFCompareEqualTo ∨
  N.CFStringCompare (OpenExtension N path) (N.CFSTR "dll") kCFCompareCaseInsensitive
      = kCFCompareEqualTo

/-- The local `pathUtf8` of `Open` (`loader.cc`, line 50): the path in UTF-8, `none` when the
conversion yields no result. -/
def OpenPathUtf8 (N : Native) (path : ttstr) : Option String :=
  N.CFStringGetCStringPtr (OpenPathStr N path) kCFStringEncodingUTF8

/-- The local `symbolName` of `GetFunction` (`loader.cc`, lines 85-87). -/
def GetFunctionSymbolName (N : Native) (name : ttstr) : Ptr :=
  N.CFStringCreateWithCString N.CFAllocatorGetDefault name kCFStringEncodingUTF16LE

/-- The local `symNameUtf8` of `GetFunction` (`loader.cc`, line 92). -/
def GetFunctionSymNameUtf8 (N : Native) (name : ttstr) : Option String :=
  N.CFStringGetCStringPtr (GetFunctionSymbolName N name) kCFStringEncodingUTF8

/-! ## Concrete native results -/

/-- Native results fixed in advance.  String constants are the references
`CFSTR "dylib" = 1`, `CFSTR "dll" = 2` and `3` for any other; the path extension is
the reference `ext`; two strings compare equal exactly when they are the same
reference.  Every UTF-8 conversion yields `utf8`, `dlopen` yields `hdl`,
`CFBundleCreate` yields `bundle`, both symbol lookups yield `sym`, `dladdr` returns
`rc` with image base `100`, and the section lookup yields `sect`. -/
def Native.fixed (ext : Ptr) (utf8 : Option String) (hdl bundle sym : Ptr) (rc : Int)
    (sect : Ptr) : Native :=
  { CFAllocatorGetDefault := 10
    CFStringCreateWithCString := fun _ _ _ => 11
    CFURLCreateWithString := fun _ _ _ => 12
    CFURLCopyPathExtension := fun _ => ext
    CFSTR := fun s => if s = "dylib" then 1 else if s = "dll" then 2 else 3
    CFStringCompare := fun s1 s2 _ => if s1 = s2 then 0 else 1
    CFStringGetCStringPtr := fun _ _ => utf8
    dlopen := fun _ _ => hdl
    CFBundleCreate := fun _ _ => bundle
    dlsym := fun _ _ => sym
    CFBundleGetFunctionPointerForName := fun _ _ => sym
    dladdr := fun _ => (rc, { dli_fname := 0, dli_fbase := 100, dli_sname := 0, dli_saddr := 0 })
    getsectbynamefromheader_64 := fun _ _ _ => sect }

/-! ## Basic facts about the methods -/

namespace tTVPSharedLibrary_Mac

theorem OpenBundle_objCStaus (N : Native) (h : tTVPSharedLibrary_Mac) (a u e : Ptr)
    (cs : List NativeCall) :
    (OpenBundle N h a u e cs).self.m_objCStaus = h.m_objCStaus := by
  unfold OpenBundle
  by_cases hb : N.CFBundleCreate a u = 0 <;> simp [hb]

theorem Open_objCStaus (h : tTVPSharedLibrary_Mac) (N : Native) (path : ttstr) :
    (h.Open N path).self.m_objCStaus = h.m_objCStaus := by
  unfold Open
  simp only
  split
  · split
    · rfl
    · split
      · rfl
      · exact OpenBundle_objCStaus _ _ _ _ _ _
  · exact OpenBundle_objCStaus _ _ _ _ _ _

theorem GetFunctionTail_refs (N : Native) (h : tTVPSharedLibrary_Mac) (s sym : Ptr)
    (cs : List NativeCall) :
    (GetFunctionTail N h s sym cs).self.m_dlHandle = h.m_dlHandle ∧
    (GetFunctionTail N h s sym cs).self.m_bundle = h.m_bundle := by
  unfold GetFunctionTail
  simp only
  split_ifs <;> simp

theorem GetFunction_refs (h : tTVPSharedLibrary_Mac) (N : Native) (name : ttstr) :
    (h.GetFunction N name).self.m_dlHandle = h.m_dlHandle ∧
    (h.GetFunction N name).self.m_bundle = h.m_bundle := by
  unfold GetFunction
  simp only
  split
  · split
    · simp
    · exact GetFunctionTail_refs _ _ _ _ _
  · exact GetFunctionTail_refs _ _ _ _ _

theorem GetFunctionTail_decided (N : Native) (h : tTVPSharedLibrary_Mac) (s sym : Ptr)
    (cs : List NativeCall) (hd : h.m_objCStaus ≠ kTVPSharedLibraryObjCStatusUnavailable) :
    (GetFunctionTail N h s sym cs).self = h := by
  unfold GetFunctionTail
  simp [hd]

theorem GetFunction_decided (h : tTVPSharedLibrary_Mac) (N : Native) (name : ttstr)
    (hd : h.m_objCStaus ≠ kTVPSharedLibraryObjCStatusUnavailable) :
    (h.GetFunction N name).self = h := by
  unfold GetFunction
  simp only
  split
  · split
    · rfl
    · exact GetFunctionTail_decided _ _ _ _ _ hd
  · exact GetFunctionTail_decided _ _ _ _ _ hd

end tTVPSharedLibrary_Mac

theorem run_objCStaus_of_decided (cs : List Call) (h : tTVPSharedLibrary_Mac)
    (hd : h.m_objCStaus ≠ kTVPSharedLibraryObjCStatusUnavailable) :
    (run h cs).m_objCStaus = h.m_objCStaus := by
  induction cs generalizing h with
  | nil => rfl
  | cons c cs ih =>
    cases c with
    | Open N path =>
      have hs := tTVPSharedLibrary_Mac.Open_objCStaus h N path
      have := ih (h.Open N path).self (by rw [hs]; exact hd)
      simpa [run, Call.apply, hs] using this
    | GetFunction N name =>
      have hs := tTVPSharedLibrary_Mac.GetFunction_decided h N name hd
      have := ih (h.GetFunction N name).self (by rw [hs]; exact hd)
      simpa [run, Call.apply, hs] using this

/-! ## The unload gate: `CanUnload` and `Close` -/

/-- C2: once the status is decided (`ObjCPresent` or `ObjCNotPresent`), no finite
sequence of `Open` and `GetFunction` calls, whatever their arguments and whatever the
native calls return, changes it; so once it is `ObjCPresent`, `CanUnload()` returns
false after every such sequence. -/
theorem objCStaus_latched (h : tTVPSharedLibrary_Mac) (cs : List Call)
    (hd : h.m_objCStaus = kTVPSharedLibraryObjCStatusObjCPresent ∨
          h.m_objCStaus = kTVPSharedLibraryObjCStatusObjCNotPresent) :
    (run h cs).m_objCStaus = h.m_objCStaus ∧
    (h.m_objCStaus = kTVPSharedLibraryObjCStatusObjCPresent → (run h cs).CanUnload = false) := by
  have hne : h.m_objCStaus ≠ kTVPSharedLibraryObjCStatusUnavailable := by
    rcases hd with hd | hd <;> rw [hd] <;> decide
  have hs := run_objCStaus_of_decided cs h hne
  refine ⟨hs, ?_⟩
  intro hp
  simp only [tTVPSharedLibrary_Mac.CanUnload, hs, hp]
  decide

/-- C2 (witness): a handle with status `ObjCPresent` holding the flat-library
reference `5`, after a `GetFunction` that resolves a symbol whose image has no
metadata section and an `Open` whose bundle load succeeds. -/
theorem objCStaus_latched_witness :
    ((⟨1, 5, 0⟩ : tTVPSharedLibrary_Mac).m_objCStaus = kTVPSharedLibraryObjCStatusObjCPresent ∨
      (⟨1, 5, 0⟩ : tTVPSharedLibrary_Mac).m_objCStaus
        = kTVPSharedLibraryObjCStatusObjCNotPresent) ∧
    (run ⟨1, 5, 0⟩
        [Call.GetFunction (Native.fixed 1 (some "compute") 5 0 7 1 0) (TJS_W "compute"),
         Call.Open (Native.fixed 3 none 0 9 0 0 0) (TJS_W "plugin.bundle")]).m_objCStaus = 1 ∧
    (run ⟨1, 5, 0⟩
        [Call.GetFunction (Native.fixed 1 (some "compute") 5 0 7 1 0) (TJS_W "compute"),
         Call.Open (Native.fixed 3 none 0 9 0 0 0) (TJS_W "plugin.bundle")]).CanUnload = false :=
  have w := objCStaus_latched ⟨1, 5, 0⟩
    [Call.GetFunction (Native.fixed 1 (some "compute") 5 0 7 1 0) (TJS_W "compute"),
     Call.Open (Native.fixed 3 none 0 9 0 0 0) (TJS_W "plugin.bundle")] (Or.inl rfl)
  ⟨Or.inl rfl, w.1, w.2 rfl⟩

/-- C3: on a handle for which `CanUnload()` is false, `Close()` raises the
failed-to-unload message, makes no native call at all (neither reference is
released), does not destroy the handle and leaves it exactly as it was; a retried
`Close()` therefore does the same again. -/
theorem Close_refused (h : tTVPSharedLibrary_Mac) (hc : h.CanUnload = false) :
    h.Close.result = Except.error
      (TVPMessage.literal (TJS_W "tTVPSharedLibrary_Mac: failed to unload a plugin")) ∧
    h.Close.calls = [] ∧
    h.Close.self = some h ∧
    (∀ h2 : tTVPSharedLibrary_Mac, h.Close.self = some h2 →
      h2.Close.result = h.Close.result ∧ h2.Close.calls = [] ∧ h2.Close.self = some h) := by
  have e : h.Close = Outcome.mk (some h) [] (TVPThrowExceptionMessage
      (TVPMessage.literal (TJS_W "tTVPSharedLibrary_Mac: failed to unload a plugin"))) := by
    simp [tTVPSharedLibrary_Mac.Close, hc]
  refine ⟨by rw [e]; rfl, by rw [e], by rw [e], ?_⟩
  intro h2 h2e
  rw [e] at h2e
  cases h2e
  exact ⟨rfl, by rw [e], by rw [e]⟩

/-- C3 (witness): a handle with status `ObjCPresent` holding the flat-library
reference `5`. -/
theorem Close_refused_witness :
    (⟨1, 5, 0⟩ : tTVPSharedLibrary_Mac).CanUnload = false ∧
    (⟨1, 5, 0⟩ : tTVPSharedLibrary_Mac).Close.calls = [] ∧
    (⟨1, 5, 0⟩ : tTVPSharedLibrary_Mac).Close.self = some ⟨1, 5, 0⟩ :=
  have w := Close_refused ⟨1, 5, 0⟩ (by decide)
  ⟨by decide, w.2.1, w.2.2.1⟩

/-- C4: on a handle for which `CanUnload()` is true, `Close()` raises nothing and
destroys the handle; the destructor applies `dlclose` to the flat-library reference
exactly when it is non-null and `CFRelease` to the bundle reference exactly when it is
non-null, each at most once, makes no other native call, and releases no null
reference. -/
theorem Close_unloads (h : tTVPSharedLibrary_Mac) (hc : h.CanUnload = true) :
    h.Close.result = Except.ok () ∧
    h.Close.self = none ∧
    (NativeCall.dlclose h.m_dlHandle ∈ h.Close.calls ↔ h.m_dlHandle ≠ 0) ∧
    (NativeCall.CFRelease h.m_bundle ∈ h.Close.calls ↔ h.m_bundle ≠ 0) ∧
    (∀ c ∈ h.Close.calls,
      c = NativeCall.dlclose h.m_dlHandle ∨ c = NativeCall.CFRelease h.m_bundle) ∧
    h.Close.calls.Nodup ∧
    NativeCall.dlclose 0 ∉ h.Close.calls ∧
    NativeCall.CFRelease 0 ∉ h.Close.calls := by
  have e : h.Close = Outcome.mk none
      ((if h.m_dlHandle ≠ 0 then [NativeCall.dlclose h.m_dlHandle] else []) ++
       (if h.m_bundle ≠ 0 then [NativeCall.CFRelease h.m_bundle] else []))
      (Except.ok ()) := by
    simp [tTVPSharedLibrary_Mac.Close, tTVPSharedLibrary_Mac.destructor, hc]
  rw [e]
  have hd2 : h.m_dlHandle = 0 ↔ 0 = h.m_dlHandle := eq_comm
  have hb2 : h.m_bundle = 0 ↔ 0 = h.m_bundle := eq_comm
  by_cases hd : h.m_dlHandle = 0 <;> by_cases hb : h.m_bundle = 0 <;>
    simp [hd, hb, ← hd2, ← hb2]

/-- C4 (witness): a handle with status `ObjCNotPresent` holding the flat-library
reference `5`: `Close()` makes the one call `dlclose(5)`. -/
theorem Close_unloads_witness :
    (⟨0, 5, 0⟩ : tTVPSharedLibrary_Mac).CanUnload = true ∧
    (⟨0, 5, 0⟩ : tTVPSharedLibrary_Mac).Close.self = none ∧
    (NativeCall.dlclose 5 ∈ (⟨0, 5, 0⟩ : tTVPSharedLibrary_Mac).Close.calls ↔ 5 ≠ 0) :=
  have w := Close_unloads ⟨0, 5, 0⟩ (by decide)
  ⟨by decide, w.2.1, w.2.2.1⟩

/-! ## The branches of `Open` -/

namespace tTVPSharedLibrary_Mac

/-- The `dlopen` branch yields a handle. -/
theorem Open_of_dlopen (h : tTVPSharedLibrary_Mac) (N : Native) (path : ttstr) (u : String)
    (hext : OpenExtensionMatches N path) (hconv : OpenPathUtf8 N path = some u)
    (hdl : N.dlopen u RTLD_LAZY ≠ 0) :
    (h.Open N path).result = Except.ok () ∧
    (h.Open N path).self = { h with m_dlHandle := N.dlopen u RTLD_LAZY } ∧
    NativeCall.dlopen u RTLD_LAZY ∈ (h.Open N path).calls ∧
    (∀ a url : Ptr, NativeCall.CFBundleCreate a url ∉ (h.Open N path).calls) := by
  unfold OpenExtensionMatches OpenExtension OpenPathUrl OpenPathStr at hext
  unfold OpenPathUtf8 OpenPathStr at hconv
  unfold Open
  simp only [Bool.or_eq_true, beq_iff_eq]
  rw [if_pos hext]
  simp only [hconv]
  rw [if_pos hdl]
  simp

/-- The path has no UTF-8 form in the `dlopen` branch. -/
theorem Open_of_no_utf8 (h : tTVPSharedLibrary_Mac) (N : Native) (path : ttstr)
    (hext : OpenExtensionMatches N path) (hconv : OpenPathUtf8 N path = none) :
    (h.Open N path).result =
      Except.error TVPMessage.TVPIllegalCharacterConversionUTF16toUTF8 ∧
    (h.Open N path).self = h ∧
    (∀ (p : String) (m : Nat), NativeCall.dlopen p m ∉ (h.Open N path).calls) ∧
    (∀ a url : Ptr, NativeCall.CFBundleCreate a url ∉ (h.Open N path).calls) := by
  unfold OpenExtensionMatches OpenExtension OpenPathUrl OpenPathStr at hext
  unfold OpenPathUtf8 OpenPathStr at hconv
  unfold Open
  simp only [Bool.or_eq_true, beq_iff_eq]
  rw [if_pos hext]
  simp only [hconv]
  simp [TVPThrowExceptionMessage]

/-- The bundle loader is reached. -/
theorem Open_of_fallthrough (h : tTVPSharedLibrary_Mac) (N : Native) (path : ttstr)
    (hflat : ¬ OpenExtensionMatches N path ∨
      ∃ u, OpenPathUtf8 N path = some u ∧ N.dlopen u RTLD_LAZY = 0) :
    (h.Open N path).result = Except.ok () ∧
    (h.Open N path).self =
      (if N.CFBundleCreate N.CFAllocatorGetDefault (OpenPathUrl N path) = 0 then h
       else { h with m_bundle := N.CFBundleCreate N.CFAllocatorGetDefault (OpenPathUrl N path) }) ∧
    NativeCall.CFBundleCreate N.CFAllocatorGetDefault (OpenPathUrl N path)
      ∈ (h.Open N path).calls := by
  unfold OpenExtensionMatches OpenExtension OpenPathUrl OpenPathStr at hflat
  unfold OpenPathUtf8 OpenPathStr at hflat
  unfold OpenPathUrl OpenPathStr
  unfold Open OpenBundle
  simp only [Bool.or_eq_true, beq_iff_eq]
  by_cases hext : N.CFStringCompare
        (N.CFURLCopyPathExtension
          (N.CFURLCreateWithString N.CFAllocatorGetDefault
            (N.CFStringCreateWithCString N.CFAllocatorGetDefault path kCFStringEncodingUTF16LE)
            nullptr))
        (N.CFSTR "dylib") kCFCompareCaseInsensitive = kCFCompareEqualTo ∨
      N.CFStringCompare
        (N.CFURLCopyPathExtension
          (N.CFURLCreateWithString N.CFAllocatorGetDefault
            (N.CFStringCreateWithCString N.CFAllocatorGetDefault path kCFStringEncodingUTF16LE)
            nullptr))
        (N.CFSTR "dll") kCFCompareCaseInsensitive = kCFCompareEqualTo
  · rcases hflat with hne | ⟨u, hconv, hdl⟩
    · exact absurd hext hne
    · rw [if_pos hext]
      simp only [hconv]
      rw [if_neg (by simp [hdl])]
      split <;> simp
  · rw [if_neg hext]
    split <;> simp

end tTVPSharedLibrary_Mac

/-! ## The branches of `GetFunction` -/

namespace tTVPSharedLibrary_Mac

theorem GetFunctionTail_result (N : Native) (h : tTVPSharedLibrary_Mac) (s sym : Ptr)
    (cs : List NativeCall) :
    (GetFunctionTail N h s sym cs).result =
      Except.ok (if h.m_bundle ≠ 0 then N.CFBundleGetFunctionPointerForName h.m_bundle s
                 else sym) := by
  unfold GetFunctionTail
  simp only
  split_ifs <;> rfl

theorem GetFunctionTail_objCStaus (N : Native) (h : tTVPSharedLibrary_Mac) (s sym r : Ptr)
    (cs : List NativeCall)
    (hr : (GetFunctionTail N h s sym cs).result = Except.ok r) (hr0 : r ≠ 0)
    (hu : h.m_objCStaus = kTVPSharedLibraryObjCStatusUnavailable) :
    ((N.dladdr r).1 ≠ 0 →
      (GetFunctionTail N h s sym cs).self.m_objCStaus =
        if N.getsectbynamefromheader_64 (N.dladdr r).2.dli_fbase SEG_DATA "__objc_imageinfo" ≠ 0
        then kTVPSharedLibraryObjCStatusObjCPresent
        else kTVPSharedLibraryObjCStatusObjCNotPresent) ∧
    ((N.dladdr r).1 = 0 → (GetFunctionTail N h s sym cs).self = h) := by
  unfold GetFunctionTail at hr ⊢
  simp only at hr ⊢
  generalize (if h.m_bundle ≠ 0 then N.CFBundleGetFunctionPointerForName h.m_bundle s
    else sym) = sym2 at hr ⊢
  split_ifs at hr ⊢ <;> simp_all

/-- The name has no UTF-8 form on a handle holding a flat-library reference. -/
theorem GetFunction_of_no_utf8 (h : tTVPSharedLibrary_Mac) (N : Native) (name : ttstr)
    (hdl : h.m_dlHandle ≠ 0) (hconv : GetFunctionSymNameUtf8 N name = none) :
    (h.GetFunction N name).result =
      Except.error TVPMessage.TVPIllegalCharacterConversionUTF16toUTF8 ∧
    (h.GetFunction N name).self = h ∧
    (∀ (d : Ptr) (s : String), NativeCall.dlsym d s ∉ (h.GetFunction N name).calls) ∧
    (∀ b n : Ptr,
      NativeCall.CFBundleGetFunctionPointerForName b n ∉ (h.GetFunction N name).calls) := by
  unfold GetFunctionSymNameUtf8 GetFunctionSymbolName at hconv
  unfold GetFunction
  simp only
  rw [if_pos hdl]
  simp only [hconv]
  simp [TVPThrowExceptionMessage]

/-- In every other case `GetFunction` returns a value. -/
theorem GetFunction_returns (h : tTVPSharedLibrary_Mac) (N : Native) (name : ttstr)
    (hc : h.m_dlHandle = 0 ∨ ∃ u, GetFunctionSymNameUtf8 N name = some u) :
    ∃ sym, (h.GetFunction N name).result = Except.ok sym := by
  unfold GetFunctionSymNameUtf8 GetFunctionSymbolName at hc
  unfold GetFunction
  simp only
  by_cases hdl : h.m_dlHandle ≠ 0
  · rcases hc with h0 | ⟨u, hu⟩
    · exact absurd h0 hdl
    · rw [if_pos hdl]
      simp only [hu]
      exact ⟨_, GetFunctionTail_result _ _ _ _ _⟩
  · rw [if_neg hdl]
    exact ⟨_, GetFunctionTail_result _ _ _ _ _⟩

/-- On a handle holding no reference `GetFunction` returns null and changes nothing. -/
theorem GetFunction_of_unopened (h : tTVPSharedLibrary_Mac) (N : Native) (name : ttstr)
    (hdl : h.m_dlHandle = 0) (hb : h.m_bundle = 0) :
    (h.GetFunction N name).result = Except.ok nullptr ∧ (h.GetFunction N name).self = h := by
  unfold GetFunction GetFunctionTail
  simp [hdl, hb, nullptr]

theorem GetFunction_objCStaus (h : tTVPSharedLibrary_Mac) (N : Native) (name : ttstr) (r : Ptr)
    (hr : (h.GetFunction N name).result = Except.ok r) (hr0 : r ≠ 0)
    (hu : h.m_objCStaus = kTVPSharedLibraryObjCStatusUnavailable) :
    ((N.dladdr r).1 ≠ 0 →
      (h.GetFunction N name).self.m_objCStaus =
        if N.getsectbynamefromheader_64 (N.dladdr r).2.dli_fbase SEG_DATA "__objc_imageinfo" ≠ 0
        then kTVPSharedLibraryObjCStatusObjCPresent
        else kTVPSharedLibraryObjCStatusObjCNotPresent) ∧
    ((N.dladdr r).1 = 0 → (h.GetFunction N name).self = h) := by
  by_cases hdl : h.m_dlHandle ≠ 0
  · cases hconv : GetFunctionSymNameUtf8 N name with
    | none =>
      rw [(GetFunction_of_no_utf8 h N name hdl hconv).1] at hr
      cases hr
    | some u =>
      unfold GetFunctionSymNameUtf8 GetFunctionSymbolName at hconv
      unfold GetFunction at hr ⊢
      simp only at hr ⊢
      rw [if_pos hdl] at hr ⊢
      simp only [hconv] at hr ⊢
      exact GetFunctionTail_objCStaus _ _ _ _ _ _ hr hr0 hu
  · unfold GetFunction at hr ⊢
    simp only at hr ⊢
    rw [if_neg hdl] at hr ⊢
    exact GetFunctionTail_objCStaus _ _ _ _ _ _ hr hr0 hu

end tTVPSharedLibrary_Mac

/-- Calls of `GetFunction` on a handle holding no reference leave it as it is. -/
theorem run_GetFunction_unopened (gs : List (Native × ttstr)) (h : tTVPSharedLibrary_Mac)
    (hdl : h.m_dlHandle = 0) (hb : h.m_bundle = 0) :
    run h (gs.map (fun g => Call.GetFunction g.1 g.2)) = h := by
  induction gs with
  | nil => rfl
  | cons g gs ih =>
    have hs := (tTVPSharedLibrary_Mac.GetFunction_of_unopened h g.1 g.2 hdl hb).2
    simpa [run, Call.apply, hs] using ih

namespace tTVPSharedLibrary_Mac

/-- With an extension other than `dylib` and `dll` the path is never converted. -/
theorem Open_of_other_extension (h : tTVPSharedLibrary_Mac) (N : Native) (path : ttstr)
    (hext : ¬ OpenExtensionMatches N path) :
    (∀ (s : Ptr) (e : Nat), NativeCall.CFStringGetCStringPtr s e ∉ (h.Open N path).calls) ∧
    (∀ (p : String) (m : Nat), NativeCall.dlopen p m ∉ (h.Open N path).calls) := by
  unfold OpenExtensionMatches OpenExtension OpenPathUrl OpenPathStr at hext
  unfold Open OpenBundle
  simp only [Bool.or_eq_true, beq_iff_eq]
  rw [if_neg hext]
  constructor <;> intros <;> split <;> simp

/-- The references after `Open` on a handle that holds none. -/
theorem Open_unopened_refs (h : tTVPSharedLibrary_Mac) (N : Native) (path : ttstr)
    (hd : h.m_dlHandle = 0) (hb : h.m_bundle = 0) :
    ((h.Open N path).self.m_dlHandle = 0 ∨ (h.Open N path).self.m_bundle = 0) ∧
    ((h.Open N path).self.m_dlHandle ≠ 0 ↔
      (OpenExtensionMatches N path ∧
        ∃ u, OpenPathUtf8 N path = some u ∧ N.dlopen u RTLD_LAZY ≠ 0)) ∧
    ((h.Open N path).self.m_bundle ≠ 0 ↔
      ((¬ OpenExtensionMatches N path ∨
          ∃ u, OpenPathUtf8 N path = some u ∧ N.dlopen u RTLD_LAZY = 0) ∧
        N.CFBundleCreate N.CFAllocatorGetDefault (OpenPathUrl N path) ≠ 0)) := by
  by_cases hext : OpenExtensionMatches N path
  · cases hconv : OpenPathUtf8 N path with
    | none =>
      have hs := (Open_of_no_utf8 h N path hext hconv).2.1
      rw [hs]
      simp [hd, hb, hext]
    | some u =>
      by_cases hdl : N.dlopen u RTLD_LAZY ≠ 0
      · have hs := (Open_of_dlopen h N path u hext hconv hdl).2.1
        rw [hs]
        simp [hb, hext, hdl]
      · have hdl0 : N.dlopen u RTLD_LAZY = 0 := by simpa using hdl
        have hs := (Open_of_fallthrough h N path (Or.inr ⟨u, hconv, hdl0⟩)).2.1
        rw [hs]
        by_cases hbc : N.CFBundleCreate N.CFAllocatorGetDefault (OpenPathUrl N path) = 0
        · simp [hbc, hd, hb, hext, hdl0]
        · simp [hbc, hd, hext, hdl0]
  · have hs := (Open_of_fallthrough h N path (Or.inl hext)).2.1
    rw [hs]
    by_cases hbc : N.CFBundleCreate N.CFAllocatorGetDefault (OpenPathUrl N path) = 0
    · simp [hbc, hd, hb, hext]
    · simp [hbc, hd, hext]

end tTVPSharedLibrary_Mac

/-- Sequences whose `Open` calls are all made on a handle holding no reference keep
at most one reference populated. -/
theorem run_exclusive (cs : List Call) (h : tTVPSharedLibrary_Mac)
    (hx : h.m_dlHandle = 0 ∨ h.m_bundle = 0) (hcs : opensUnopened h cs) :
    (run h cs).m_dlHandle = 0 ∨ (run h cs).m_bundle = 0 := by
  induction cs generalizing h with
  | nil => exact hx
  | cons c cs ih =>
    cases c with
    | Open N path =>
      obtain ⟨⟨hd, hb⟩, hrest⟩ := hcs
      exact ih (h.Open N path).self
        (tTVPSharedLibrary_Mac.Open_unopened_refs h N path hd hb).1 hrest
    | GetFunction N name =>
      have hr := tTVPSharedLibrary_Mac.GetFunction_refs h N name
      exact ih (h.GetFunction N name).self (by rw [hr.1, hr.2]; exact hx) hcs

/-! ## The status decision in `GetFunction` -/

/-- C5 (counterexample): a handle opened on a flat library, status still `Unavailable`;
`GetFunction` resolves the non-null address `7`, the reverse lookup `dladdr` fails
(returns `0`), and the status is still `Unavailable` after the call. -/
theorem GetFunction_leaves_undecided :
    (⟨-1, 5, 0⟩ : tTVPSharedLibrary_Mac).m_objCStaus = kTVPSharedLibraryObjCStatusUnavailable ∧
    ((⟨-1, 5, 0⟩ : tTVPSharedLibrary_Mac).GetFunction
        (Native.fixed 0 (some "compute") 0 0 7 0 0) (TJS_W "compute")).result = Except.ok 7 ∧
    ((⟨-1, 5, 0⟩ : tTVPSharedLibrary_Mac).GetFunction
        (Native.fixed 0 (some "compute") 0 0 7 0 0) (TJS_W "compute")).self.m_objCStaus
      = kTVPSharedLibraryObjCStatusUnavailable :=
  ⟨rfl, rfl, rfl⟩

/-- C5 (amended): on a handle whose status is still `Unavailable`, if `GetFunction`
resolves a non-null address and the reverse lookup `dladdr` of that address succeeds,
the status after the call is decided: `ObjCPresent` if the image found by `dladdr` has
the section `__objc_imageinfo` in its data segment, `ObjCNotPresent` otherwise.  If
`dladdr` fails, the handle is left as it was, its status still `Unavailable`. -/
theorem GetFunction_decides_status (h : tTVPSharedLibrary_Mac) (N : Native) (name : ttstr)
    (sym : Ptr)
    (hu : h.m_objCStaus = kTVPSharedLibraryObjCStatusUnavailable)
    (hr : (h.GetFunction N name).result = Except.ok sym) (hs : sym ≠ nullptr) :
    ((N.dladdr sym).1 ≠ 0 →
      (N.getsectbynamefromheader_64 (N.dladdr sym).2.dli_fbase SEG_DATA "__objc_imageinfo" ≠ 0 →
        (h.GetFunction N name).self.m_objCStaus = kTVPSharedLibraryObjCStatusObjCPresent) ∧
      (N.getsectbynamefromheader_64 (N.dladdr sym).2.dli_fbase SEG_DATA "__objc_imageinfo" = 0 →
        (h.GetFunction N name).self.m_objCStaus = kTVPSharedLibraryObjCStatusObjCNotPresent)) ∧
    ((N.dladdr sym).1 = 0 →
      (h.GetFunction N name).self.m_objCStaus = kTVPSharedLibraryObjCStatusUnavailable) := by
  have key := tTVPSharedLibrary_Mac.GetFunction_objCStaus h N name sym hr hs hu
  refine ⟨fun hrc => ⟨fun hsect => ?_, fun hsect => ?_⟩, fun hrc => ?_⟩
  · rw [key.1 hrc, if_pos hsect]
  · rw [key.1 hrc, if_neg (by simp [hsect])]
  · rw [key.2 hrc, hu]

/-- C5 (witness): the bundle handle of a newly opened plug-in resolves `compute` to
the address `7`; `dladdr` succeeds and the image has the section (reference `8`), so
the status becomes `ObjCPresent`. -/
theorem GetFunction_decides_status_witness :
    (⟨-1, 0, 9⟩ : tTVPSharedLibrary_Mac).m_objCStaus = kTVPSharedLibraryObjCStatusUnavailable ∧
    ((⟨-1, 0, 9⟩ : tTVPSharedLibrary_Mac).GetFunction
        (Native.fixed 0 none 0 0 7 1 8) (TJS_W "compute")).result = Except.ok 7 ∧
    ((⟨-1, 0, 9⟩ : tTVPSharedLibrary_Mac).GetFunction
        (Native.fixed 0 none 0 0 7 1 8) (TJS_W "compute")).self.m_objCStaus
      = kTVPSharedLibraryObjCStatusObjCPresent :=
  ⟨rfl, rfl,
    ((GetFunction_decides_status ⟨-1, 0, 9⟩ (Native.fixed 0 none 0 0 7 1 8) (TJS_W "compute") 7
      rfl rfl (by decide)).1 (by decide)).1 (by decide)⟩

/-! ## Backend selection in `Open` -/

/-- C6 (counterexample): a handle that already holds the flat-library reference `5`,
status `Unavailable`.  `Open` on `missing.dylib` finds no backend (`dlopen` and
`CFBundleCreate` both yield null) and raises nothing, yet the flat-library reference is
still `5`, not null; the next `GetFunction` returns the address `7`, not null, and
changes the status to `ObjCNotPresent`. -/
theorem Open_without_backend_keeps_reference :
    (∃ u, OpenPathUtf8 (Native.fixed 1 (some "missing.dylib") 0 0 0 0 0)
        (TJS_W "missing.dylib") = some u ∧
      (Native.fixed 1 (some "missing.dylib") 0 0 0 0 0).dlopen u RTLD_LAZY = nullptr) ∧
    (Native.fixed 1 (some "missing.dylib") 0 0 0 0 0).CFBundleCreate
      (Native.fixed 1 (some "missing.dylib") 0 0 0 0 0).CFAllocatorGetDefault
      (OpenPathUrl (Native.fixed 1 (some "missing.dylib") 0 0 0 0 0) (TJS_W "missing.dylib"))
      = nullptr ∧
    ((⟨-1, 5, 0⟩ : tTVPSharedLibrary_Mac).Open (Native.fixed 1 (some "missing.dylib") 0 0 0 0 0)
      (TJS_W "missing.dylib")).result = Except.ok () ∧
    ((⟨-1, 5, 0⟩ : tTVPSharedLibrary_Mac).Open (Native.fixed 1 (some "missing.dylib") 0 0 0 0 0)
      (TJS_W "missing.dylib")).self.m_dlHandle = 5 ∧
    ((((⟨-1, 5, 0⟩ : tTVPSharedLibrary_Mac).Open
        (Native.fixed 1 (some "missing.dylib") 0 0 0 0 0) (TJS_W "missing.dylib")).self).GetFunction
      (Native.fixed 0 (some "compute") 0 0 7 1 0) (TJS_W "compute")).result = Except.ok 7 ∧
    ((((⟨-1, 5, 0⟩ : tTVPSharedLibrary_Mac).Open
        (Native.fixed 1 (some "missing.dylib") 0 0 0 0 0) (TJS_W "missing.dylib")).self).GetFunction
      (Native.fixed 0 (some "compute") 0 0 7 1 0) (TJS_W "compute")).self.m_objCStaus
      = kTVPSharedLibraryObjCStatusObjCNotPresent :=
  ⟨⟨"missing.dylib", rfl, rfl⟩, rfl, rfl, rfl, rfl, rfl⟩

/-- C6 (amended): for every handle and every path, `CFBundleCreate` is called in
exactly these cases: the extension does not match, or `dlopen` is called on the
converted path and yields no handle.  If in such a case `CFBundleCreate` yields no
bundle either, `Open` raises nothing and leaves the handle as it was.  On a handle
that holds no native reference before the call (in particular a newly constructed
one) both references are then null, and every later `GetFunction` call, after any
number of earlier ones, for any name and any native results, returns null, raises
nothing and leaves the handle, its status included, unchanged. -/
theorem Open_without_backend (h : tTVPSharedLibrary_Mac) (N : Native) (path : ttstr) :
    ((∃ a url, NativeCall.CFBundleCreate a url ∈ (h.Open N path).calls) ↔
      (¬ OpenExtensionMatches N path ∨
        ∃ u, OpenPathUtf8 N path = some u ∧ N.dlopen u RTLD_LAZY = nullptr)) ∧
    ((¬ OpenExtensionMatches N path ∨
        ∃ u, OpenPathUtf8 N path = some u ∧ N.dlopen u RTLD_LAZY = nullptr) →
      N.CFBundleCreate N.CFAllocatorGetDefault (OpenPathUrl N path) = nullptr →
      (h.Open N path).result = Except.ok () ∧ (h.Open N path).self = h) ∧
    (h.m_dlHandle = nullptr → h.m_bundle = nullptr →
      (¬ OpenExtensionMatches N path ∨
        ∃ u, OpenPathUtf8 N path = some u ∧ N.dlopen u RTLD_LAZY = nullptr) →
      N.CFBundleCreate N.CFAllocatorGetDefault (OpenPathUrl N path) = nullptr →
      (h.Open N path).result = Except.ok () ∧
      (h.Open N path).self.m_dlHandle = nullptr ∧
      (h.Open N path).self.m_bundle = nullptr ∧
      (∀ (gs : List (Native × ttstr)) (N2 : Native) (name : ttstr),
        ((run (h.Open N path).self (gs.map (fun g => Call.GetFunction g.1 g.2))).GetFunction
            N2 name).result = Except.ok nullptr ∧
        ((run (h.Open N path).self (gs.map (fun g => Call.GetFunction g.1 g.2))).GetFunction
            N2 name).self = (h.Open N path).self ∧
        ((run (h.Open N path).self (gs.map (fun g => Call.GetFunction g.1 g.2))).GetFunction
            N2 name).self.m_objCStaus = h.m_objCStaus)) := by
  simp only [nullptr]
  have hunchanged : (¬ OpenExtensionMatches N path ∨
        ∃ u, OpenPathUtf8 N path = some u ∧ N.dlopen u RTLD_LAZY = 0) →
      N.CFBundleCreate N.CFAllocatorGetDefault (OpenPathUrl N path) = 0 →
      (h.Open N path).result = Except.ok () ∧ (h.Open N path).self = h := by
    intro hflat hbundle
    have ho := tTVPSharedLibrary_Mac.Open_of_fallthrough h N path hflat
    exact ⟨ho.1, by rw [ho.2.1, if_pos hbundle]⟩
  refine ⟨⟨?_, ?_⟩, hunchanged, ?_⟩
  · rintro ⟨a, url, hmem⟩
    by_contra hcon
    have hext : OpenExtensionMatches N path := by
      by_contra hne
      exact hcon (Or.inl hne)
    cases hconv : OpenPathUtf8 N path with
    | none =>
      exact (tTVPSharedLibrary_Mac.Open_of_no_utf8 h N path hext hconv).2.2.2 a url hmem
    | some u =>
      by_cases hdl : N.dlopen u RTLD_LAZY = 0
      · exact hcon (Or.inr ⟨u, hconv, hdl⟩)
      · exact (tTVPSharedLibrary_Mac.Open_of_dlopen h N path u hext hconv hdl).2.2.2
          a url hmem
  · intro hf
    exact ⟨_, _, (tTVPSharedLibrary_Mac.Open_of_fallthrough h N path hf).2.2⟩
  · intro hd hb hflat hbundle
    obtain ⟨hok, hself⟩ := hunchanged hflat hbundle
    refine ⟨hok, by rw [hself]; exact hd, by rw [hself]; exact hb, ?_⟩
    intro gs N2 name
    rw [hself, run_GetFunction_unopened gs h hd hb]
    have hg := tTVPSharedLibrary_Mac.GetFunction_of_unopened h N2 name hd hb
    exact ⟨hg.1, hg.2, by rw [hg.2]⟩

/-- C6 (witness): `missing.dylib` on a newly constructed handle: the extension
matches, the path converts, `dlopen` and `CFBundleCreate` both yield null; `Open`
raises nothing, both references are null, and a later `GetFunction` returns null. -/
theorem Open_without_backend_witness :
    (¬ OpenExtensionMatches (Native.fixed 1 (some "missing.dylib") 0 0 0 0 0)
          (TJS_W "missing.dylib") ∨
      ∃ u, OpenPathUtf8 (Native.fixed 1 (some "missing.dylib") 0 0 0 0 0)
          (TJS_W "missing.dylib") = some u ∧
        (Native.fixed 1 (some "missing.dylib") 0 0 0 0 0).dlopen u RTLD_LAZY = nullptr) ∧
    (tTVPSharedLibrary_Mac.constructor.Open (Native.fixed 1 (some "missing.dylib") 0 0 0 0 0)
      (TJS_W "missing.dylib")).result = Except.ok () ∧
    (tTVPSharedLibrary_Mac.constructor.Open (Native.fixed 1 (some "missing.dylib") 0 0 0 0 0)
      (TJS_W "missing.dylib")).self.m_dlHandle = nullptr ∧
    (tTVPSharedLibrary_Mac.constructor.Open (Native.fixed 1 (some "missing.dylib") 0 0 0 0 0)
      (TJS_W "missing.dylib")).self.m_bundle = nullptr ∧
    ((run (tTVPSharedLibrary_Mac.constructor.Open
          (Native.fixed 1 (some "missing.dylib") 0 0 0 0 0) (TJS_W "missing.dylib")).self
        (([] : List (Native × ttstr)).map (fun g => Call.GetFunction g.1 g.2))).GetFunction
      (Native.fixed 0 (some "anything") 0 0 7 1 0) (TJS_W "anything")).result
      = Except.ok nullptr :=
  have hflat : ¬ OpenExtensionMatches (Native.fixed 1 (some "missing.dylib") 0 0 0 0 0)
          (TJS_W "missing.dylib") ∨
      ∃ u, OpenPathUtf8 (Native.fixed 1 (some "missing.dylib") 0 0 0 0 0)
          (TJS_W "missing.dylib") = some u ∧
        (Native.fixed 1 (some "missing.dylib") 0 0 0 0 0).dlopen u RTLD_LAZY = nullptr :=
    Or.inr ⟨"missing.dylib", rfl, rfl⟩
  have w := (Open_without_backend tTVPSharedLibrary_Mac.constructor
    (Native.fixed 1 (some "missing.dylib") 0 0 0 0 0) (TJS_W "missing.dylib")).2.2
      rfl rfl hflat rfl
  ⟨hflat, w.1, w.2.1, w.2.2.1,
    (w.2.2.2 [] (Native.fixed 0 (some "anything") 0 0 7 1 0) (TJS_W "anything")).1⟩

/-- C7: for a path whose extension compares equal, case-insensitively, to `dylib` or
`dll`, whose UTF-8 form exists and whose `dlopen` with `RTLD_LAZY` yields a non-null
handle, `Open` on a newly constructed handle raises nothing, stores that handle in
`m_dlHandle`, leaves `m_bundle` null and the status untouched, and makes no
`CFBundleCreate` call. -/
theorem Open_flat_library (N : Native) (path : ttstr) (u : String)
    (hext : OpenExtensionMatches N path) (hconv : OpenPathUtf8 N path = some u)
    (hdl : N.dlopen u RTLD_LAZY ≠ nullptr) :
    (tTVPSharedLibrary_Mac.constructor.Open N path).result = Except.ok () ∧
    (tTVPSharedLibrary_Mac.constructor.Open N path).self.m_dlHandle = N.dlopen u RTLD_LAZY ∧
    (tTVPSharedLibrary_Mac.constructor.Open N path).self.m_bundle = nullptr ∧
    (tTVPSharedLibrary_Mac.constructor.Open N path).self.m_objCStaus
      = kTVPSharedLibraryObjCStatusUnavailable ∧
    NativeCall.dlopen u RTLD_LAZY ∈ (tTVPSharedLibrary_Mac.constructor.Open N path).calls ∧
    (∀ a url : Ptr,
      NativeCall.CFBundleCreate a url ∉ (tTVPSharedLibrary_Mac.constructor.Open N path).calls) := by
  simp only [nullptr] at hdl ⊢
  have ho := tTVPSharedLibrary_Mac.Open_of_dlopen tTVPSharedLibrary_Mac.constructor N path u
    hext hconv hdl
  refine ⟨ho.1, by rw [ho.2.1], by rw [ho.2.1]; rfl, by rw [ho.2.1]; rfl, ho.2.2.1, ho.2.2.2⟩

/-- C7 (witness): `plugin.DLL`-style match on the second suffix: the extension is the
constant `dll`, the path converts, `dlopen` yields the handle `5`. -/
theorem Open_flat_library_witness :
    OpenExtensionMatches (Native.fixed 2 (some "plugin.dll") 5 9 0 0 0) (TJS_W "plugin.dll") ∧
    (tTVPSharedLibrary_Mac.constructor.Open (Native.fixed 2 (some "plugin.dll") 5 9 0 0 0)
      (TJS_W "plugin.dll")).self.m_dlHandle = 5 ∧
    (tTVPSharedLibrary_Mac.constructor.Open (Native.fixed 2 (some "plugin.dll") 5 9 0 0 0)
      (TJS_W "plugin.dll")).self.m_bundle = nullptr :=
  have hext : OpenExtensionMatches (Native.fixed 2 (some "plugin.dll") 5 9 0 0 0)
      (TJS_W "plugin.dll") := Or.inr (by decide)
  have w := Open_flat_library (Native.fixed 2 (some "plugin.dll") 5 9 0 0 0)
    (TJS_W "plugin.dll") "plugin.dll" hext rfl (by decide)
  ⟨hext, w.2.1, w.2.2.1⟩

/-- C8 (counterexample): from construction, `Open` on `a.dylib` (`dlopen` yields the
handle `5`) followed by `Open` on `b.bundle` (`CFBundleCreate` yields the bundle `9`)
leaves both references populated. -/
theorem second_Open_populates_both :
    (run tTVPSharedLibrary_Mac.constructor
      [Call.Open (Native.fixed 1 (some "a.dylib") 5 0 0 0 0) (TJS_W "a.dylib"),
       Call.Open (Native.fixed 3 (some "b.bundle") 0 9 0 0 0) (TJS_W "b.bundle")]).m_dlHandle = 5 ∧
    (run tTVPSharedLibrary_Mac.constructor
      [Call.Open (Native.fixed 1 (some "a.dylib") 5 0 0 0 0) (TJS_W "a.dylib"),
       Call.Open (Native.fixed 3 (some "b.bundle") 0 9 0 0 0) (TJS_W "b.bundle")]).m_bundle = 9 := by
  decide

/-- C8 (amended): backend exclusivity holds for a newly constructed handle, is
preserved by every `GetFunction` call (which changes neither reference) and by every
`Open` call made on a handle that holds no reference; after such an `Open` the
flat-library reference is populated exactly when `dlopen` was reached and yielded a
handle, the bundle reference exactly when `CFBundleCreate` was reached and yielded a
bundle, and never both.  So in every state reached from construction by a sequence of
`Open` and `GetFunction` calls in which each `Open` is made on a handle holding no
reference, the two references are never both populated. -/
theorem backend_exclusive_until_opened :
    (tTVPSharedLibrary_Mac.constructor.m_dlHandle = nullptr ∧
      tTVPSharedLibrary_Mac.constructor.m_bundle = nullptr) ∧
    (∀ (h : tTVPSharedLibrary_Mac) (N : Native) (name : ttstr),
      (h.GetFunction N name).self.m_dlHandle = h.m_dlHandle ∧
      (h.GetFunction N name).self.m_bundle = h.m_bundle) ∧
    (∀ (h : tTVPSharedLibrary_Mac) (N : Native) (path : ttstr),
      h.m_dlHandle = nullptr → h.m_bundle = nullptr →
      ((h.Open N path).self.m_dlHandle = nullptr ∨ (h.Open N path).self.m_bundle = nullptr) ∧
      ((h.Open N path).self.m_dlHandle ≠ nullptr ↔
        (OpenExtensionMatches N path ∧
          ∃ u, OpenPathUtf8 N path = some u ∧ N.dlopen u RTLD_LAZY ≠ nullptr)) ∧
      ((h.Open N path).self.m_bundle ≠ nullptr ↔
        ((¬ OpenExtensionMatches N path ∨
            ∃ u, OpenPathUtf8 N path = some u ∧ N.dlopen u RTLD_LAZY = nullptr) ∧
          N.CFBundleCreate N.CFAllocatorGetDefault (OpenPathUrl N path) ≠ nullptr))) ∧
    (∀ cs : List Call, opensUnopened tTVPSharedLibrary_Mac.constructor cs →
      (run tTVPSharedLibrary_Mac.constructor cs).m_dlHandle = nullptr ∨
      (run tTVPSharedLibrary_Mac.constructor cs).m_bundle = nullptr) := by
  refine ⟨⟨rfl, rfl⟩, tTVPSharedLibrary_Mac.GetFunction_refs, ?_, ?_⟩
  · intro h N path hd hb
    exact tTVPSharedLibrary_Mac.Open_unopened_refs h N path hd hb
  · intro cs hcs
    exact run_exclusive cs tTVPSharedLibrary_Mac.constructor (Or.inl rfl) hcs

/-- C8 (witness): a failed `Open`, then an `Open` that loads a bundle, then a
`GetFunction`: every `Open` is made on a handle holding no reference, and afterwards
the flat-library reference is null. -/
theorem backend_exclusive_until_opened_witness :
    opensUnopened tTVPSharedLibrary_Mac.constructor
      [Call.Open (Native.fixed 1 (some "missing.dylib") 0 0 0 0 0) (TJS_W "missing.dylib"),
       Call.Open (Native.fixed 3 none 0 9 0 0 0) (TJS_W "plugin.bundle"),
       Call.GetFunction (Native.fixed 0 none 0 0 7 1 8) (TJS_W "compute")] ∧
    ((run tTVPSharedLibrary_Mac.constructor
      [Call.Open (Native.fixed 1 (some "missing.dylib") 0 0 0 0 0) (TJS_W "missing.dylib"),
       Call.Open (Native.fixed 3 none 0 9 0 0 0) (TJS_W "plugin.bundle"),
       Call.GetFunction (Native.fixed 0 none 0 0 7 1 8) (TJS_W "compute")]).m_dlHandle = nullptr ∨
     (run tTVPSharedLibrary_Mac.constructor
      [Call.Open (Native.fixed 1 (some "missing.dylib") 0 0 0 0 0) (TJS_W "missing.dylib"),
       Call.Open (Native.fixed 3 none 0 9 0 0 0) (TJS_W "plugin.bundle"),
       Call.GetFunction (Native.fixed 0 none 0 0 7 1 8) (TJS_W "compute")]).m_bundle = nullptr) :=
  have hcs : opensUnopened tTVPSharedLibrary_Mac.constructor
      [Call.Open (Native.fixed 1 (some "missing.dylib") 0 0 0 0 0) (TJS_W "missing.dylib"),
       Call.Open (Native.fixed 3 none 0 9 0 0 0) (TJS_W "plugin.bundle"),
       Call.GetFunction (Native.fixed 0 none 0 0 7 1 8) (TJS_W "compute")] :=
    ⟨⟨rfl, rfl⟩, ⟨rfl, rfl⟩, trivial⟩
  ⟨hcs, backend_exclusive_until_opened.2.2.2 _ hcs⟩

/-! ## Encoding errors -/

/-- C9 (counterexample): the path `plugin.bundle` has no UTF-8 form, its extension is
neither `dylib` nor `dll`: `Open` raises nothing, calls `CFBundleCreate`, and stores
the bundle `9` in the handle. -/
theorem Open_unconvertible_path_loads_bundle :
    OpenPathUtf8 (Native.fixed 3 none 0 9 0 0 0) (TJS_W "plugin.bundle") = none ∧
    (tTVPSharedLibrary_Mac.constructor.Open (Native.fixed 3 none 0 9 0 0 0)
      (TJS_W "plugin.bundle")).result = Except.ok () ∧
    NativeCall.CFBundleCreate 10 12 ∈
      (tTVPSharedLibrary_Mac.constructor.Open (Native.fixed 3 none 0 9 0 0 0)
        (TJS_W "plugin.bundle")).calls ∧
    (tTVPSharedLibrary_Mac.constructor.Open (Native.fixed 3 none 0 9 0 0 0)
      (TJS_W "plugin.bundle")).self.m_bundle = 9 :=
  ⟨rfl, rfl, by decide, rfl⟩

/-- C9 (amended): for a path that has no UTF-8 form: when its extension compares
equal to `dylib` or `dll`, `Open` raises the character-conversion message, calls
neither `dlopen` nor `CFBundleCreate` and leaves the handle as it was; when its
extension is any other, the conversion is not attempted, nothing is raised and the
bundle load is attempted. -/
theorem Open_path_encoding_error (h : tTVPSharedLibrary_Mac) (N : Native) (path : ttstr)
    (hconv : OpenPathUtf8 N path = none) :
    (OpenExtensionMatches N path →
      (h.Open N path).result =
        Except.error TVPMessage.TVPIllegalCharacterConversionUTF16toUTF8 ∧
      (∀ (p : String) (m : Nat), NativeCall.dlopen p m ∉ (h.Open N path).calls) ∧
      (∀ a url : Ptr, NativeCall.CFBundleCreate a url ∉ (h.Open N path).calls) ∧
      (h.Open N path).self = h) ∧
    (¬ OpenExtensionMatches N path →
      (h.Open N path).result = Except.ok () ∧
      (∀ (s : Ptr) (e : Nat), NativeCall.CFStringGetCStringPtr s e ∉ (h.Open N path).calls) ∧
      NativeCall.CFBundleCreate N.CFAllocatorGetDefault (OpenPathUrl N path)
        ∈ (h.Open N path).calls) := by
  constructor
  · intro hext
    have ho := tTVPSharedLibrary_Mac.Open_of_no_utf8 h N path hext hconv
    exact ⟨ho.1, ho.2.2.1, ho.2.2.2, ho.2.1⟩
  · intro hext
    have ho := tTVPSharedLibrary_Mac.Open_of_fallthrough h N path (Or.inl hext)
    exact ⟨ho.1, (tTVPSharedLibrary_Mac.Open_of_other_extension h N path hext).1, ho.2.2⟩

/-- C9 (witness): the path `plugin.dylib` has no UTF-8 form: `Open` on a handle
holding the bundle `9` raises the message and leaves the handle as it was. -/
theorem Open_path_encoding_error_witness :
    OpenPathUtf8 (Native.fixed 1 none 5 9 0 0 0) (TJS_W "plugin.dylib") = none ∧
    OpenExtensionMatches (Native.fixed 1 none 5 9 0 0 0) (TJS_W "plugin.dylib") ∧
    ((⟨-1, 0, 9⟩ : tTVPSharedLibrary_Mac).Open (Native.fixed 1 none 5 9 0 0 0)
      (TJS_W "plugin.dylib")).result =
        Except.error TVPMessage.TVPIllegalCharacterConversionUTF16toUTF8 ∧
    ((⟨-1, 0, 9⟩ : tTVPSharedLibrary_Mac).Open (Native.fixed 1 none 5 9 0 0 0)
      (TJS_W "plugin.dylib")).self = ⟨-1, 0, 9⟩ :=
  have hext : OpenExtensionMatches (Native.fixed 1 none 5 9 0 0 0) (TJS_W "plugin.dylib") :=
    Or.inl (by decide)
  have w := (Open_path_encoding_error ⟨-1, 0, 9⟩ (Native.fixed 1 none 5 9 0 0 0)
    (TJS_W "plugin.dylib") rfl).1 hext
  ⟨rfl, hext, w.1, w.2.2.2⟩

/-- C10: `GetFunction` raises the character-conversion message exactly when the handle
holds a flat-library reference and the name has no UTF-8 form, and it raises nothing
else; on a handle whose flat-library reference is null (a bundle handle or an unopened
one) it returns a value for every name, convertible or not.  When it raises, neither
`dlsym` nor `CFBundleGetFunctionPointerForName` has been called and the handle, its
status and both references, is as it was. -/
theorem GetFunction_raises_iff (h : tTVPSharedLibrary_Mac) (N : Native) (name : ttstr) :
    ((h.GetFunction N name).result =
        Except.error TVPMessage.TVPIllegalCharacterConversionUTF16toUTF8 ↔
      (h.m_dlHandle ≠ nullptr ∧ GetFunctionSymNameUtf8 N name = none)) ∧
    (∀ e, (h.GetFunction N name).result = Except.error e →
      e = TVPMessage.TVPIllegalCharacterConversionUTF16toUTF8 ∧
      (∀ (d : Ptr) (s : String), NativeCall.dlsym d s ∉ (h.GetFunction N name).calls) ∧
      (∀ b n : Ptr,
        NativeCall.CFBundleGetFunctionPointerForName b n ∉ (h.GetFunction N name).calls) ∧
      (h.GetFunction N name).self = h) ∧
    (h.m_dlHandle = nullptr → ∃ sym, (h.GetFunction N name).result = Except.ok sym) := by
  simp only [nullptr]
  have hcases : (h.m_dlHandle ≠ 0 ∧ GetFunctionSymNameUtf8 N name = none) ∨
      (h.m_dlHandle = 0 ∨ ∃ u, GetFunctionSymNameUtf8 N name = some u) := by
    by_cases hd : h.m_dlHandle = 0
    · exact Or.inr (Or.inl hd)
    · cases hconv : GetFunctionSymNameUtf8 N name with
      | none => exact Or.inl ⟨hd, rfl⟩
      | some u => exact Or.inr (Or.inr ⟨u, rfl⟩)
  rcases hcases with ⟨hd, hconv⟩ | hret
  · have hg := tTVPSharedLibrary_Mac.GetFunction_of_no_utf8 h N name hd hconv
    refine ⟨⟨fun _ => ⟨hd, hconv⟩, fun _ => hg.1⟩, ?_, fun h0 => absurd h0 hd⟩
    intro e he
    rw [hg.1] at he
    cases he
    exact ⟨rfl, hg.2.2.1, hg.2.2.2, hg.2.1⟩
  · obtain ⟨sym, hsym⟩ := tTVPSharedLibrary_Mac.GetFunction_returns h N name hret
    refine ⟨⟨fun he => ?_, fun hc => ?_⟩, ?_, fun _ => ⟨sym, hsym⟩⟩
    · rw [hsym] at he
      cases he
    · rcases hret with h0 | ⟨u, hu⟩
      · exact absurd h0 hc.1
      · rw [hc.2] at hu
        cases hu
    · intro e he
      rw [hsym] at he
      cases he

/-- C10 (witness): the name `compute` has no UTF-8 form; on the flat-library handle
`5` `GetFunction` raises, on the bundle handle `9` it returns the address `7`. -/
theorem GetFunction_raises_iff_witness :
    ((⟨-1, 5, 0⟩ : tTVPSharedLibrary_Mac).GetFunction (Native.fixed 0 none 0 0 7 1 0)
      (TJS_W "compute")).result =
        Except.error TVPMessage.TVPIllegalCharacterConversionUTF16toUTF8 ∧
    ((⟨-1, 0, 9⟩ : tTVPSharedLibrary_Mac).GetFunction (Native.fixed 0 none 0 0 7 1 0)
      (TJS_W "compute")).result = Except.ok 7 :=
  ⟨(GetFunction_raises_iff ⟨-1, 5, 0⟩ (Native.fixed 0 none 0 0 7 1 0)
      (TJS_W "compute")).1.2 ⟨by decide, rfl⟩, rfl⟩
